import Mathlib

set_option maxRecDepth 8000
set_option maxHeartbeats 1600000

/-!
Shallow embedding of the SUOKA merge-game core (src/unnamed/part_000, a React
component wrapping a Matter.js physics world) and proofs about the frozen
claims.  Numbers are embedded as `ℚ` (wall-clock times, board coordinates,
velocities) and `ℕ`/`ℤ` for counters; JavaScript `Map`/`Set` objects are
embedded as association lists / lists with unique keys.  Pure-render helpers
(canvas drawing, the sprite cache's pixel output, the animation position
interpolation of `updateAnimations`) and the Matter.js integrator itself are
not modelled: every claim below is about the state-transforming operations,
which are translated line by line.

Euclidean norms: the source compares `Vector.magnitude v < c` and
`Math.hypot dx dy < c`.  All bounds `c` occurring in the source are strictly
positive (`mergeSpeedMax = 200`, `mergeRelSpeedMax = 300`, and spawn
minimum distances built from radii that are at least 12), so the comparison
is embedded as the equivalent rational comparison `dx*dx + dy*dy < c*c`,
avoiding irrational square roots.
-/

namespace Suoka

/-- Resolution-dependent part of the `cfg` object (lines 566-602): board
size and the mobile flag; everything else in `cfg` is a literal constant or
derived from these. -/
structure Config where
  boardW : ℚ
  boardH : ℚ
  isMobile : Bool
deriving DecidableEq, Repr

/-- cfg.gracePeriodMs = 800 (line 588). -/
def gracePeriodMs : ℚ := 800

/-- cfg.dropCooldownMs = 400 (line 589). -/
def dropCooldownMs : ℚ := 400

/-- cfg.maxCircles = 150 (line 597). -/
def maxCircles : ℕ := 150

/-- cfg.mergeSpeedMax = 200 (line 598). -/
def mergeSpeedMax : ℚ := 200

/-- cfg.mergeRelSpeedMax = 300 (line 599). -/
def mergeRelSpeedMax : ℚ := 300

/-- cfg.scoreMul = 1 (line 601). -/
def scoreMul : ℕ := 1

/-- cfg.valueDist (line 600). -/
def valueDist : List ℕ := [2, 2, 2, 2, 2, 4, 4, 8, 16, 32]

/-- getRadiusForValue (lines 546-564).  `Math.log2 (value / 2)` is embedded
as `Nat.log2 (value / 2)`; the two agree on every value the game constructs
(the power-of-two values drawn from `valueDist` and their doublings). -/
def getRadiusForValue (cfg : Config) (value : ℕ) : ℚ :=
  let minDimension := min cfg.boardW cfg.boardH
  let baseRadius : ℚ :=
    if cfg.isMobile then max 16 (min 32 (minDimension * 0.08)) else 34
  let scaleFactor : ℚ := (Nat.log2 (value / 2) : ℚ) * 0.15
  let minRadius := max 12 (baseRadius * 0.5)
  let maxRadius := max 40 (baseRadius * 1.8)
  max minRadius (min maxRadius (baseRadius + scaleFactor * baseRadius))

/-- cfg.dangerLineY (lines 576-580). -/
def dangerLineY (cfg : Config) : ℚ :=
  if cfg.isMobile then max 80 (min 150 (cfg.boardH * 0.2)) else 120

/-- cfg.spawnY (lines 581-587): `maxSpawnValue = 32`. -/
def spawnY (cfg : Config) : ℚ :=
  let maxRadius := getRadiusForValue cfg 32
  let minSpawnY := maxRadius
  let dangerOffset := maxRadius + 120
  max minSpawnY (dangerLineY cfg - dangerOffset)

/-- ParticlePool (lines 44-111): struct-of-arrays particle store.  The JS
free list is an array used as a stack (push/pop at the end); it is embedded
head-first, i.e. the head of `freeList` is the JS array's last element. -/
structure ParticlePool where
  capacity : ℕ
  count : ℤ
  freeList : List ℕ
  x : List ℚ
  y : List ℚ
  vx : List ℚ
  vy : List ℚ
  size : List ℚ
  maxSize : List ℚ
  life : List ℚ
  maxLife : List ℚ
  startTime : List ℚ
  colorIndex : List ℕ
deriving DecidableEq, Repr

/-- ParticlePool constructor (lines 61-81): Float32Arrays are
zero-initialised; the pre-populated free list pushes `capacity-1 … 0`, so
its top (list head) is `0`, giving `List.range capacity`. -/
def ParticlePool.init (capacity : ℕ) : ParticlePool :=
  { capacity := capacity
    count := 0
    freeList := List.range capacity
    x := List.replicate capacity 0
    y := List.replicate capacity 0
    vx := List.replicate capacity 0
    vy := List.replicate capacity 0
    size := List.replicate capacity 0
    maxSize := List.replicate capacity 0
    life := List.replicate capacity 0
    maxLife := List.replicate capacity 0
    startTime := List.replicate capacity 0
    colorIndex := List.replicate capacity 0 }

/-- ParticlePool.acquire (lines 83-88): pop a slot off the free list, or
return the sentinel `-1` when exhausted. -/
def ParticlePool.acquire (p : ParticlePool) : ℤ × ParticlePool :=
  match p.freeList with
  | [] => (-1, p)
  | i :: rest => ((i : ℤ), { p with freeList := rest, count := p.count + 1 })

/-- ParticlePool.release (lines 90-94): out-of-range indices return early;
otherwise the index is pushed onto the free list and the active count is
decremented.  The source performs no already-free check. -/
def ParticlePool.release (p : ParticlePool) (index : ℤ) : ParticlePool :=
  if index < 0 ∨ (p.capacity : ℤ) ≤ index then p
  else { p with freeList := index.toNat :: p.freeList, count := p.count - 1 }

/-- ParticlePool.clear (lines 96-102). -/
def ParticlePool.clear (p : ParticlePool) : ParticlePool :=
  { p with count := 0, freeList := List.range p.capacity }

/-- CircleData (lines 16-21): one live disc.  `bodyId` is the Matter.js
body id, the key of `state.circles`; `x`, `y` mirror `body.position`.  The
disc radius is not stored: the source recomputes it from `value` via
`getRadiusForValue` at every use. -/
structure Circle where
  bodyId : ℕ
  value : ℕ
  bornAt : ℚ
  localId : ℕ
  x : ℚ
  y : ℚ
deriving DecidableEq, Repr

/-- Animation variant tag (line 26). -/
inductive AnimType where
  | merge
  | spawn
deriving DecidableEq, Repr

/-- Animation (lines 23-32); optional fields depend on the variant. -/
structure Animation where
  startTime : ℚ
  duration : ℚ
  type : AnimType
  targetX : Option ℚ := none
  targetY : Option ℚ := none
  startX : Option ℚ := none
  startY : Option ℚ := none
  scale : Option ℚ := none
deriving DecidableEq, Repr

/-- MergeRequest (lines 34-41). -/
structure MergeRequest where
  bodyAId : ℕ
  bodyBId : ℕ
  x : ℚ
  y : ℚ
  value : ℕ
  timestamp : ℚ
deriving DecidableEq, Repr

/-- The deferred merge-completion callback that `performMerge` registers
with the HOST's timer queue via `setTimeout(…, 300)` (lines 905-922).  The
closure captures the two participants' body ids, the midpoint and the
doubled value; `fireAt` is the registration time plus the 300 ms glide.
Nothing in the game state references it — in particular `restart` holds no
handle with which to cancel it. -/
structure PendingSpawn where
  aId : ℕ
  bId : ℕ
  x : ℚ
  y : ℚ
  value : ℕ
  fireAt : ℚ
deriving DecidableEq, Repr

/-- A Matter.js body as seen by the collision handler: id, label, position
and velocity. -/
structure Body where
  id : ℕ
  label : String
  px : ℚ
  py : ℚ
  vx : ℚ
  vy : ℚ
deriving DecidableEq, Repr

/-- The mutable `state` object (lines 720-737).  `circles` embeds the JS
`Map<number, CircleData>` keyed by `body.id` (stored inside each entry as
`Circle.bodyId`; keys are unique because Matter body ids are globally
unique, modelled by the `nextBodyId` counter).  `mergingCircles` embeds the
JS `Set<number>`, `animations` the `Map<number, Animation>`. -/
structure GState where
  previewX : ℚ
  score : ℕ
  best : ℕ
  nextValue : ℕ
  running : Bool
  paused : Bool
  lastDropTs : ℚ
  ended : Bool
  endReason : String
  circles : List Circle
  nextLocalId : ℕ
  mergingCircles : List ℕ
  animations : List (ℕ × Animation)
  mergeQueue : List MergeRequest
  highestCircleTop : ℚ
  nextBodyId : ℕ
deriving DecidableEq, Repr

/-- state.circles.get(bodyId). -/
def getCircle (g : GState) (bodyId : ℕ) : Option Circle :=
  g.circles.find? (fun c => c.bodyId == bodyId)

/-- JS `Set.add`: insert without duplication. -/
def insertSet (x : ℕ) (s : List ℕ) : List ℕ :=
  if x ∈ s then s else x :: s

/-- JS `Map.set` on the animations map: insert or overwrite the key. -/
def setAnim (m : List (ℕ × Animation)) (k : ℕ) (a : Animation) :
    List (ℕ × Animation) :=
  (k, a) :: m.filter (fun e => e.1 ≠ k)

/-- Initial `state` object (lines 720-737).  `roll` stands for the random
draw `rollValue()` (line 648), `now` for `performance.now()`.  Matter.js
assigns globally unique body ids, modelled by starting a fresh counter. -/
def initialGState (cfg : Config) (now : ℚ) (savedBest : ℕ) (roll : ℕ) :
    GState :=
  { previewX := cfg.boardW / 2
    score := 0
    best := savedBest
    nextValue := roll
    running := false
    paused := false
    lastDropTs := now
    ended := false
    endReason := ""
    circles := []
    nextLocalId := 1
    mergingCircles := []
    animations := []
    mergeQueue := []
    highestCircleTop := cfg.boardH
    nextBodyId := 1 }

/-- createCircle (lines 751-780): reject when the disc table is at
`cfg.maxCircles` (the boundary toast `"Object limit reached"` is
render-side); otherwise add a fresh body to the world and a fresh entry to
`state.circles`.  The body's physical material parameters (restitution,
friction, …) configure the unmodelled integrator and carry no game state. -/
def createCircle (now : ℚ) (g : GState) (x y : ℚ) (value : ℕ) :
    Option Circle × GState :=
  if maxCircles ≤ g.circles.length then (none, g)
  else
    let c : Circle :=
      { bodyId := g.nextBodyId, value := value, bornAt := now
        localId := g.nextLocalId, x := x, y := y }
    (some c,
      { g with
          circles := g.circles ++ [c]
          nextLocalId := g.nextLocalId + 1
          nextBodyId := g.nextBodyId + 1 })

/-- removeCircle (lines 783-791): delete the body from the world and the
entry from `circles` and `mergingCircles`; missing ids return early. -/
def removeCircle (g : GState) (bodyId : ℕ) : GState :=
  match getCircle g bodyId with
  | none => g
  | some _ =>
      { g with
          circles := g.circles.filter (fun c => c.bodyId ≠ bodyId)
          mergingCircles := g.mergingCircles.filter (fun i => i ≠ bodyId) }

/-- Squared comparison standing for `Vector.magnitude ⟨vx, vy⟩ < c` /
`Math.hypot vx vy < c`; equivalent for the strictly positive bounds the
source uses. -/
def sqMagLt (vx vy c : ℚ) : Bool := vx * vx + vy * vy < c * c

/-- The eligibility chain of the collisionStart handler (lines 796-817),
one Bool: both labels are "circle", both ids resolve in `state.circles`
with equal values, neither id is mid-merge, and the three strict speed
gates hold. -/
def pairEligible (g : GState) (p : Body × Body) : Bool :=
  p.1.label == "circle" && p.2.label == "circle" &&
  (match getCircle g p.1.id, getCircle g p.2.id with
   | some A, some B => A.value == B.value
   | _, _ => false) &&
  !(g.mergingCircles.contains p.1.id) &&
  !(g.mergingCircles.contains p.2.id) &&
  sqMagLt p.1.vx p.1.vy mergeSpeedMax &&
  sqMagLt p.2.vx p.2.vy mergeSpeedMax &&
  sqMagLt (p.1.vx - p.2.vx) (p.1.vy - p.2.vy) mergeRelSpeedMax

/-- The MergeRequest pushed at lines 820-827. -/
def mkRequest (g : GState) (now : ℚ) (p : Body × Body) : MergeRequest :=
  { bodyAId := p.1.id
    bodyBId := p.2.id
    x := (p.1.px + p.2.px) / 2
    y := (p.1.py + p.2.py) / 2
    value := (match getCircle g p.1.id with | some A => A.value | none => 0)
    timestamp := now }

/-- One iteration of the collisionStart loop body (lines 796-829). -/
def collisionPairStep (now : ℚ) (g : GState) (p : Body × Body) : GState :=
  if pairEligible g p then
    { g with mergeQueue := g.mergeQueue ++ [mkRequest g now p] }
  else g

/-- The collisionStart event handler (lines 794-830): fold the per-pair
step over the tick's collision pairs. -/
def collisionStart (now : ℚ) (g : GState) (pairs : List (Body × Body)) :
    GState :=
  pairs.foldl (collisionPairStep now) g

/-- performMerge (lines 853-923): lock both participants, record the two
merge-glide animations, add `newValue * scoreMul` to the score (updating
`best`), and register the 300 ms-delayed removal/spawn callback with the
host timer queue (returned as a `PendingSpawn`; the game state keeps no
reference to it).  The particle burst (`createMergeExplosion`) writes only
the particle pool, modelled separately; the store sync and the debounced
localStorage best-score write are boundary effects. -/
def performMerge (now : ℚ) (g : GState) (A B : Circle) (x y : ℚ) :
    GState × PendingSpawn :=
  let g1 :=
    { g with mergingCircles := insertSet B.bodyId (insertSet A.bodyId g.mergingCircles) }
  let newValue := A.value * 2
  let animA : Animation :=
    { startTime := now, duration := 300, type := AnimType.merge
      targetX := some x, targetY := some y
      startX := some A.x, startY := some A.y }
  let animB : Animation :=
    { startTime := now, duration := 300, type := AnimType.merge
      targetX := some x, targetY := some y
      startX := some B.x, startY := some B.y }
  let g2 :=
    { g1 with animations := setAnim (setAnim g1.animations A.bodyId animA) B.bodyId animB }
  let score' := g2.score + newValue * scoreMul
  let best' := if g2.best < score' then score' else g2.best
  let g3 := { g2 with score := score', best := best' }
  (g3,
    { aId := A.bodyId, bId := B.bodyId, x := x, y := y
      value := newValue, fireAt := now + 300 })

/-- The while-loop of processMergeQueue (lines 834-849) over the remaining
queue: shift each request, skip it when a participant is gone or already
mid-merge, otherwise performMerge.  The timer callbacks registered along
the way are collected in order. -/
def pmqGo (now : ℚ) : List MergeRequest → GState → GState × List PendingSpawn
  | [], g => (g, [])
  | m :: rest, g =>
    match getCircle g m.bodyAId, getCircle g m.bodyBId with
    | some A, some B =>
        if m.bodyAId ∈ g.mergingCircles ∨ m.bodyBId ∈ g.mergingCircles then
          pmqGo now rest g
        else
          let r := performMerge now g A B m.x m.y
          let r' := pmqGo now rest r.1
          (r'.1, r.2 :: r'.2)
    | _, _ => pmqGo now rest g

/-- processMergeQueue (lines 833-850): drain `state.mergeQueue`. -/
def processMergeQueue (now : ℚ) (g : GState) : GState × List PendingSpawn :=
  pmqGo now g.mergeQueue { g with mergeQueue := [] }

/-- The body of the `setTimeout` callback registered by performMerge
(lines 906-922), executed by the host 300 ms later against whatever state
is current THEN: remove both participants, clear their mid-merge locks,
and create the doubled-value disc with its spawn-grow animation.  The
upward `Body.applyForce` impulse only nudges the unmodelled integrator. -/
def fireMergeTimeout (now : ℚ) (g : GState) (t : PendingSpawn) : GState :=
  let g1 := removeCircle g t.aId
  let g2 := removeCircle g1 t.bId
  let g3 :=
    { g2 with
        mergingCircles :=
          (g2.mergingCircles.filter (fun i => i ≠ t.aId)).filter
            (fun i => i ≠ t.bId) }
  match createCircle now g3 t.x t.y t.value with
  | (some C, g4) =>
      { g4 with
          animations :=
            setAnim g4.animations C.bodyId
              { startTime := now, duration := 200, type := AnimType.spawn
                scale := some 0 } }
  | (none, g4) => g4

/-- endGame (lines 1445-1459): return early when the session already
ended; otherwise transition to Ended with the given reason.  Freezing
`engine.timing.timeScale`, the store sync and the modal are render/boundary
effects. -/
def endGame (g : GState) (reason : String) : GState :=
  if g.ended then g
  else { g with ended := true, running := false, endReason := reason }

/-- restart (lines 1461-1501): remove every body, clear the disc table,
locks, animations and queue, and reset the session fields.  `roll` stands
for `rollValue()`.  `best` survives; the Matter body-id counter is global
and is NOT reset.  Note the pool clear and step-runner reset act on the
separately modelled subsystems, and nothing here touches the host timer
queue: pending `setTimeout` merge-completions stay scheduled. -/
def restart (cfg : Config) (roll : ℕ) (g : GState) : GState :=
  { g with
      circles := []
      mergingCircles := []
      animations := []
      mergeQueue := []
      score := 0
      nextValue := roll
      running := true
      paused := false
      ended := false
      endReason := ""
      lastDropTs := 0
      previewX := cfg.boardW / 2
      nextLocalId := 1
      highestCircleTop := cfg.boardH }

/-- updateHighestCircle (lines 1051-1060): recompute
`state.highestCircleTop` from scratch as the minimum disc top, starting
from `cfg.boardH`. -/
def updateHighestCircle (cfg : Config) (g : GState) : GState :=
  { g with
      highestCircleTop :=
        g.circles.foldl
          (fun acc c =>
            let top := c.y - getRadiusForValue cfg c.value
            if top < acc then top else acc)
          cfg.boardH }

/-- The danger-line loop condition (lines 1066-1077) as an existence test:
some grace-cleared disc has its top or its centre above the line.  The
source's first-hit early return reaches `endGame` exactly when some disc
satisfies this, so the loop is embedded as `List.any`. -/
def dangerHit (cfg : Config) (now : ℚ) (g : GState) : Bool :=
  g.circles.any fun c =>
    !(now - c.bornAt ≤ gracePeriodMs) &&
    (c.y - getRadiusForValue cfg c.value < dangerLineY cfg ||
      c.y < dangerLineY cfg)

/-- The emergency counter of lines 1081-1090: grace-cleared discs whose
centre sits within 30 units below the danger line. -/
def emergencyCount (cfg : Config) (now : ℚ) (g : GState) : ℕ :=
  (g.circles.filter fun c =>
      !(now - c.bornAt ≤ gracePeriodMs) &&
      c.y < dangerLineY cfg + 30).length

/-- checkDangerLine (lines 1062-1096): fast path when the highest tracked
top is still below (numerically greater than) the danger line; otherwise
the per-disc scan, then the emergency stacked-circles heuristic gated on
`state.circles.size > 12`. -/
def checkDangerLine (cfg : Config) (now : ℚ) (g : GState) : GState :=
  if dangerLineY cfg < g.highestCircleTop then g
  else if dangerHit cfg now g then endGame g "Danger line crossed."
  else if 12 < g.circles.length ∧ 6 < emergencyCount cfg now g then
    endGame g "Too many circles stacked."
  else g

/-- Comparison definition for the refinement claim, following the spec's
words: the UNCONDITIONAL full scan — the same per-disc danger check and
emergency heuristic, but without the `highestCircleTop` fast path. -/
def checkDangerLineFullScan (cfg : Config) (now : ℚ) (g : GState) : GState :=
  if dangerHit cfg now g then endGame g "Danger line crossed."
  else if 12 < g.circles.length ∧ 6 < emergencyCount cfg now g then
    endGame g "Too many circles stacked."
  else g

/-- Comparison definition following the spec's words: `highestTop`
recomputed from scratch — the minimum over all discs of centre-y minus
radius, with the empty-board default `cfg.boardH`. -/
def specHighestTop (cfg : Config) (g : GState) : ℚ :=
  (g.circles.map fun c => c.y - getRadiusForValue cfg c.value).foldl min
    cfg.boardH

/-- isSpawnFree (lines 1359-1380): no live disc closer than
`(spawnRadius + existingRadius) * 1.1`, and the point lies within the
board-edge bounds. -/
def isSpawnFree (cfg : Config) (g : GState) (x y : ℚ) (value : ℕ) : Bool :=
  let spawnRadius := getRadiusForValue cfg value
  (g.circles.all fun data =>
      let dx := x - data.x
      let dy := y - data.y
      let minDistance := (spawnRadius + getRadiusForValue cfg data.value) * 1.1
      !(dx * dx + dy * dy < minDistance * minDistance)) &&
  (spawnRadius ≤ y && y ≤ cfg.boardH - spawnRadius &&
    spawnRadius ≤ x && x ≤ cfg.boardW - spawnRadius)

/-- The stepped-offset search of tryDrop (lines 1396-1409), iterating
`i = 1..6`: test `x - i*step` (guarded left of the wall), then
`x + i*step`, breaking at the first free position. -/
def phase1Search (cfg : Config) (g : GState) (value : ℕ)
    (radius x y step : ℚ) : List ℕ → Option ℚ
  | [] => none
  | i :: rest =>
    let xl := x - i * step
    let xr := x + i * step
    if radius ≤ xl && isSpawnFree cfg g xl y value then some xl
    else if xr ≤ cfg.boardW - radius && isSpawnFree cfg g xr y value then
      some xr
    else phase1Search cfg g value radius x y step rest

/-- The zig-zag fallback search of tryDrop (lines 1411-1428), iterating
`i = 0..6`: alternate right/left around `state.previewX` in widening
`floor(i/2)`-sized multiples of `step` at the spawn Y. -/
def zigzagSearch (cfg : Config) (g : GState) (value : ℕ)
    (radius step safeY : ℚ) : List ℕ → Option ℚ
  | [] => none
  | i :: rest =>
    let testX :=
      g.previewX + (if i % 2 = 0 then (1 : ℚ) else -1) * (↑(i / 2)) * step
    if radius ≤ testX && testX ≤ cfg.boardW - radius &&
        isSpawnFree cfg g testX safeY value then some testX
    else zigzagSearch cfg g value radius step safeY rest

/-- The tail of tryDrop after a position was chosen (lines 1436-1441):
create the disc; only when creation succeeded, roll the next value and
start the drop cooldown. -/
def dropPlace (now : ℚ) (roll : ℕ) (g : GState) (x y : ℚ) : GState :=
  match createCircle now g x y g.nextValue with
  | (some _, g') => { g' with nextValue := roll, lastDropTs := now }
  | (none, g') => g'

/-- tryDrop (lines 1382-1442): gate on session state and the drop
cooldown; if the default spawn point `(previewX, spawnY)` is taken, run
the stepped-offset search then the zig-zag search; when nothing is free,
end the session. -/
def tryDrop (cfg : Config) (now : ℚ) (roll : ℕ) (g : GState) : GState :=
  if !g.running || g.ended || g.paused then g
  else if now - g.lastDropTs < dropCooldownMs then g
  else
    let value := g.nextValue
    let radius := getRadiusForValue cfg value
    let x := g.previewX
    let y := spawnY cfg
    if isSpawnFree cfg g x y value then dropPlace now roll g x y
    else
      let step := radius * 1.1
      match phase1Search cfg g value radius x y step [1, 2, 3, 4, 5, 6] with
      | some px => dropPlace now roll g px y
      | none =>
        match zigzagSearch cfg g value radius step (spawnY cfg)
            [0, 1, 2, 3, 4, 5, 6] with
        | some px => dropPlace now roll g px (spawnY cfg)
        | none => endGame g "No space to spawn."

/-- The bounded list of alternate positions tryDrop probes, in source
order: stepped offsets `previewX ± i*step`, `i = 1..6`, left before
right, then the zig-zag positions at the spawn Y. -/
def dropSearchOrder (cfg : Config) (g : GState) : List ℚ :=
  let radius := getRadiusForValue cfg g.nextValue
  let step := radius * 1.1
  (([1, 2, 3, 4, 5, 6] : List ℕ).flatMap fun i =>
      [g.previewX - i * step, g.previewX + i * step]) ++
    (([0, 1, 2, 3, 4, 5, 6] : List ℕ).map fun i =>
      g.previewX + (if i % 2 = 0 then (1 : ℚ) else -1) * (↑(i / 2)) * step)

/-- One state-mutating operation of the game core, closed over arbitrary
parameters (times, rolls, collision pairs, and — because the host timer
queue is not tracked by the game state — arbitrary firing timer
callbacks). -/
inductive Step (cfg : Config) : GState → GState → Prop
  | create (now x y : ℚ) (v : ℕ) (g : GState) :
      Step cfg g (createCircle now g x y v).2
  | remove (bodyId : ℕ) (g : GState) : Step cfg g (removeCircle g bodyId)
  | collide (now : ℚ) (pairs : List (Body × Body)) (g : GState) :
      Step cfg g (collisionStart now g pairs)
  | resolveMerges (now : ℚ) (g : GState) :
      Step cfg g (processMergeQueue now g).1
  | fire (now : ℚ) (t : PendingSpawn) (g : GState) :
      Step cfg g (fireMergeTimeout now g t)
  | drop (now : ℚ) (roll : ℕ) (g : GState) :
      Step cfg g (tryDrop cfg now roll g)
  | updateHighest (g : GState) : Step cfg g (updateHighestCircle cfg g)
  | danger (now : ℚ) (g : GState) : Step cfg g (checkDangerLine cfg now g)
  | stop (reason : String) (g : GState) : Step cfg g (endGame g reason)
  | restartGame (roll : ℕ) (g : GState) : Step cfg g (restart cfg roll g)

/-- GameState (lines 6-14): the snapshot synchronised to React. -/
structure GameState where
  score : ℕ
  best : ℕ
  nextValue : ℕ
  running : Bool
  paused : Bool
  ended : Bool
  endReason : String
deriving DecidableEq, Repr

/-- A `Partial<GameState>` argument of setState: absent fields are
`none`. -/
structure PartialGameState where
  score : Option ℕ := none
  best : Option ℕ := none
  nextValue : Option ℕ := none
  running : Option Bool := none
  paused : Option Bool := none
  ended : Option Bool := none
  endReason : Option String := none
deriving DecidableEq, Repr

/-- The spread-merge `{ ...this.state, ...newState }` (line 405). -/
def mergeState (s : GameState) (p : PartialGameState) : GameState :=
  { score := p.score.getD s.score
    best := p.best.getD s.best
    nextValue := p.nextValue.getD s.nextValue
    running := p.running.getD s.running
    paused := p.paused.getD s.paused
    ended := p.ended.getD s.ended
    endReason := p.endReason.getD s.endReason }

/-- GameStateStore (lines 386-413): the stored snapshot and
`updateThrottle`, the time of the last ACCEPTED update (initially 0). -/
structure GameStateStore where
  state : GameState
  updateThrottle : ℚ
deriving DecidableEq, Repr

/-- GameStateStore.setState (lines 400-407) with `now` standing for
`performance.now()` and `throttleMs = 100`: a call within 100 ms of the
last accepted update returns before touching anything; otherwise the
partial update is spread-merged and the listeners run.  The returned Bool
records whether the listeners were notified. -/
def GameStateStore.setState (store : GameStateStore) (now : ℚ)
    (p : PartialGameState) : GameStateStore × Bool :=
  if now - store.updateThrottle < 100 then (store, false)
  else ({ state := mergeState store.state p, updateThrottle := now }, true)

/-- The claim-side eligibility predicate for a collision pair, written as
the spec states it: both bodies are circle-labelled discs present in the
disc table with equal values, neither participant is mid-merge, both
speeds are strictly below `mergeSpeedMax` and the relative speed is
strictly below `mergeRelSpeedMax` (squared-norm form of the strict
Euclidean comparisons, see the header note). -/
def EligiblePair (g : GState) (p : Body × Body) : Prop :=
  p.1.label = "circle" ∧ p.2.label = "circle" ∧
  (∃ A B : Circle, getCircle g p.1.id = some A ∧ getCircle g p.2.id = some B ∧
    A.value = B.value) ∧
  p.1.id ∉ g.mergingCircles ∧ p.2.id ∉ g.mergingCircles ∧
  p.1.vx * p.1.vx + p.1.vy * p.1.vy < mergeSpeedMax * mergeSpeedMax ∧
  p.2.vx * p.2.vx + p.2.vy * p.2.vy < mergeSpeedMax * mergeSpeedMax ∧
  (p.1.vx - p.2.vx) * (p.1.vx - p.2.vx) +
      (p.1.vy - p.2.vy) * (p.1.vy - p.2.vy) <
    mergeRelSpeedMax * mergeRelSpeedMax

/-- Desktop configuration used by the concrete witnesses (a 600×600
board). -/
def cfgDesk : Config := { boardW := 600, boardH := 600, isMobile := false }

/-- Mobile configuration used by the concrete counterexamples (the
smallest mobile board, 280×400, where the danger line sits at `y = 80` and
a value-2 disc has radius `22.4`). -/
def cfgMob : Config := { boardW := 280, boardH := 400, isMobile := true }

/-- A freshly started session on `cfg` with the given disc list. -/
def runningWith (cfg : Config) (cs : List Circle) : GState :=
  { initialGState cfg 0 0 2 with running := true, circles := cs }

end Suoka

namespace Suoka

/-! Helper lemmas shared by several claim proofs. -/

theorem endGame_circles (g : GState) (r : String) :
    (endGame g r).circles = g.circles := by
  unfold endGame; split <;> rfl

theorem endGame_circles_length (g : GState) (r : String) :
    (endGame g r).circles.length = g.circles.length := by
  rw [endGame_circles]

theorem pairEligible_set_queue (g : GState) (q : List MergeRequest) :
    pairEligible { g with mergeQueue := q } = pairEligible g := rfl

theorem mkRequest_set_queue (g : GState) (q : List MergeRequest) (now : ℚ) :
    mkRequest { g with mergeQueue := q } now = mkRequest g now := rfl

theorem collisionStart_spec (now : ℚ) (pairs : List (Body × Body)) :
    ∀ g : GState,
      (collisionStart now g pairs).mergeQueue =
        g.mergeQueue ++ (pairs.filter (pairEligible g)).map (mkRequest g now) ∧
      (collisionStart now g pairs).circles = g.circles ∧
      (collisionStart now g pairs).mergingCircles = g.mergingCircles ∧
      (collisionStart now g pairs).score = g.score := by
  induction pairs with
  | nil => intro g; simp [collisionStart]
  | cons p rest ih =>
    intro g
    have hstep :
        collisionPairStep now g p =
          if pairEligible g p then
            { g with mergeQueue := g.mergeQueue ++ [mkRequest g now p] }
          else g := rfl
    rw [show collisionStart now g (p :: rest) =
        collisionStart now (collisionPairStep now g p) rest from rfl]
    by_cases h : pairEligible g p
    · have hstep' :
          collisionPairStep now g p =
            { g with mergeQueue := g.mergeQueue ++ [mkRequest g now p] } := by
        rw [hstep, if_pos h]
      rw [hstep']
      obtain ⟨h1, h2, h3, h4⟩ :=
        ih { g with mergeQueue := g.mergeQueue ++ [mkRequest g now p] }
      rw [pairEligible_set_queue, mkRequest_set_queue] at h1
      refine ⟨?_, h2, h3, h4⟩
      rw [h1]
      simp only [List.filter_cons, h, if_true, List.map_cons, List.append_assoc,
        List.singleton_append]
      rfl
    · have hstep' : collisionPairStep now g p = g := by rw [hstep, if_neg h]
      rw [hstep']
      obtain ⟨h1, h2, h3, h4⟩ := ih g
      refine ⟨?_, h2, h3, h4⟩
      rw [h1]
      simp [List.filter_cons, h]

theorem pairEligible_iff (g : GState) (p : Body × Body) :
    pairEligible g p = true ↔ EligiblePair g p := by
  unfold pairEligible EligiblePair sqMagLt
  cases hA : getCircle g p.1.id <;> cases hB : getCircle g p.2.id <;>
    simp [hA, hB, List.contains, List.elem_iff, and_assoc]

/-! ### C6 — session-end idempotence -/

/-- C6: the session-end trigger is idempotent.  A second `endGame` call,
with any (possibly different) reason, is a no-op: composing two calls
equals the first alone, so `endReason` keeps the first reason and
`ended`/`running` are unchanged; and on an already-ended session a call
leaves the state exactly as it was. -/
theorem endGame_idempotent :
    (∀ (g : GState) (r₁ r₂ : String),
      endGame (endGame g r₁) r₂ = endGame g r₁) ∧
    ∀ (g : GState) (r : String), g.ended = true → endGame g r = g := by
  constructor
  · intro g r₁ r₂
    unfold endGame
    by_cases h : g.ended = true
    · simp [h]
    · simp [h]
  · intro g r h
    unfold endGame
    simp [h]

/-- C6 witness: on a concrete already-ended session, a second call with a
different reason changes nothing. -/
theorem endGame_idempotent_witness :
    endGame
        { initialGState cfgDesk 0 0 2 with ended := true, endReason := "Danger line crossed." }
        "No space to spawn." =
      { initialGState cfgDesk 0 0 2 with ended := true, endReason := "Danger line crossed." } :=
  endGame_idempotent.2 _ "No space to spawn." rfl

/-! ### C2 — particle-pool release -/

/-- C2 counterexample: releasing a slot that is already free is NOT a
no-op.  On a capacity-4 pool, acquire slot 0, release it (slot 0 is now
free), then release it again: the second release changes the pool (it
pushes a duplicate 0 onto the free list and drives the active count to
-1). -/
theorem release_double_changes_pool :
    ParticlePool.release
        (ParticlePool.release ((ParticlePool.init 4).acquire.2) 0) 0 ≠
      ParticlePool.release ((ParticlePool.init 4).acquire.2) 0 := by
  decide

/-- C2 amended: `release(i)` with `i` outside `[0, capacity)` is a no-op
(free list, count and all particle arrays unchanged); but a release of any
in-range index unconditionally pushes the index onto the free list and
decrements the active count — even when the slot is already free — so a
double-release is not a no-op (the particle arrays are still never
touched). -/
theorem release_out_of_range_noop :
    (∀ (p : ParticlePool) (i : ℤ), i < 0 ∨ (p.capacity : ℤ) ≤ i →
      p.release i = p) ∧
    ∀ (p : ParticlePool) (i : ℤ), 0 ≤ i → i < (p.capacity : ℤ) →
      p.release i =
        { p with freeList := i.toNat :: p.freeList, count := p.count - 1 } := by
  constructor
  · intro p i h
    unfold ParticlePool.release
    simp [h]
  · intro p i h1 h2
    unfold ParticlePool.release
    rw [if_neg]
    push_neg
    exact ⟨h1, h2⟩

/-- C2 witness: on a capacity-4 pool, releasing index 7 is a no-op, while
releasing the free in-range index 2 pushes it and decrements the count. -/
theorem release_out_of_range_noop_witness :
    ParticlePool.release (ParticlePool.init 4) 7 = ParticlePool.init 4 ∧
    ParticlePool.release (ParticlePool.init 4) 2 =
      { ParticlePool.init 4 with
          freeList := (2 : ℤ).toNat :: (ParticlePool.init 4).freeList
          count := (ParticlePool.init 4).count - 1 } :=
  ⟨release_out_of_range_noop.1 (ParticlePool.init 4) 7 (Or.inr (by decide)),
    release_out_of_range_noop.2 (ParticlePool.init 4) 2 (by decide) (by decide)⟩

/-! ### C3 — merge-eligibility filter -/

/-- C3: during a physics step the collision handler appends to the merge
queue exactly the collision-start pairs passing the eligibility filter (in
order), and that Bool filter holds iff the claim's conditions do: both
bodies are circle-labelled discs in the table, `A.value = B.value`,
neither participant is mid-merge, both speeds are strictly below
`mergeSpeedMax` and the relative speed strictly below `mergeRelSpeedMax`.
Pairs involving a wall (label ≠ "circle") or failing any condition are
never enqueued. -/
theorem collisionStart_enqueues_iff (now : ℚ) (g : GState)
    (pairs : List (Body × Body)) :
    (collisionStart now g pairs).mergeQueue =
      g.mergeQueue ++ (pairs.filter (pairEligible g)).map (mkRequest g now) ∧
    ∀ p : Body × Body, pairEligible g p = true ↔ EligiblePair g p :=
  ⟨(collisionStart_spec now pairs g).1, fun p => pairEligible_iff g p⟩

/-- C3 witness: two resting value-2 discs colliding produce exactly one
queued request at their midpoint, and the pair satisfies the claim's
eligibility conditions; a wall pair produces nothing. -/
theorem collisionStart_enqueues_iff_witness :
    (collisionStart 900
        (runningWith cfgDesk
          [⟨1, 2, 0, 1, 280, 560⟩, ⟨2, 2, 0, 2, 320, 560⟩])
        [(⟨1, "circle", 280, 560, 0, 0⟩, ⟨2, "circle", 320, 560, 0, 0⟩),
          (⟨1, "circle", 280, 560, 0, 0⟩, ⟨7, "wall", 0, 300, 0, 0⟩)]).mergeQueue =
      [⟨1, 2, 300, 560, 2, 900⟩] ∧
    EligiblePair
      (runningWith cfgDesk [⟨1, 2, 0, 1, 280, 560⟩, ⟨2, 2, 0, 2, 320, 560⟩])
      (⟨1, "circle", 280, 560, 0, 0⟩, ⟨2, "circle", 320, 560, 0, 0⟩) := by
  have h := collisionStart_enqueues_iff 900
    (runningWith cfgDesk [⟨1, 2, 0, 1, 280, 560⟩, ⟨2, 2, 0, 2, 320, 560⟩])
    [(⟨1, "circle", 280, 560, 0, 0⟩, ⟨2, "circle", 320, 560, 0, 0⟩),
      (⟨1, "circle", 280, 560, 0, 0⟩, ⟨7, "wall", 0, 300, 0, 0⟩)]
  refine ⟨?_, ?_⟩
  · rw [h.1]
    with_unfolding_all rfl
  · exact (h.2 (⟨1, "circle", 280, 560, 0, 0⟩, ⟨2, "circle", 320, 560, 0, 0⟩)).1
      (by with_unfolding_all rfl)

/-! ### C4 — merge doubling and score accounting -/

/-- C10 helper-free basic facts about performMerge used below. -/
theorem performMerge_fields (now : ℚ) (g : GState) (A B : Circle) (x y : ℚ) :
    (performMerge now g A B x y).1.circles = g.circles ∧
    (performMerge now g A B x y).1.score =
      g.score + (performMerge now g A B x y).2.value * scoreMul ∧
    (performMerge now g A B x y).2.value = A.value * 2 ∧
    (performMerge now g A B x y).2.aId = A.bodyId ∧
    (performMerge now g A B x y).2.bId = B.bodyId :=
  ⟨rfl, rfl, rfl, rfl, rfl⟩

theorem getCircle_congr {g₁ g₂ : GState} (h : g₁.circles = g₂.circles)
    (i : ℕ) : getCircle g₁ i = getCircle g₂ i := by
  unfold getCircle
  rw [h]

theorem getCircle_bodyId {g : GState} {i : ℕ} {A : Circle}
    (h : getCircle g i = some A) : A.bodyId = i := by
  have h2 := List.find?_some h
  simpa using h2

theorem pmqGo_spec (now : ℚ) (q : List MergeRequest) :
    ∀ g : GState,
      (pmqGo now q g).1.circles = g.circles ∧
      (pmqGo now q g).1.score =
        g.score + ((pmqGo now q g).2.map fun t => t.value * scoreMul).sum ∧
      ∀ t ∈ (pmqGo now q g).2,
        (∃ m ∈ q, m.bodyAId = t.aId ∧ m.bodyBId = t.bId) ∧
        ∃ A, getCircle g t.aId = some A ∧ t.value = A.value * 2 := by
  induction q with
  | nil => intro g; simp [pmqGo]
  | cons m rest ih =>
    intro g
    unfold pmqGo
    cases hA : getCircle g m.bodyAId with
    | none =>
      simp only [hA]
      obtain ⟨h1, h2, h3⟩ := ih g
      refine ⟨h1, h2, fun t ht => ?_⟩
      obtain ⟨⟨m', hm', hma, hmb⟩, hA'⟩ := h3 t ht
      exact ⟨⟨m', List.mem_cons_of_mem m hm', hma, hmb⟩, hA'⟩
    | some A =>
      cases hB : getCircle g m.bodyBId with
      | none =>
        simp only [hA, hB]
        obtain ⟨h1, h2, h3⟩ := ih g
        refine ⟨h1, h2, fun t ht => ?_⟩
        obtain ⟨⟨m', hm', hma, hmb⟩, hA'⟩ := h3 t ht
        exact ⟨⟨m', List.mem_cons_of_mem m hm', hma, hmb⟩, hA'⟩
      | some B =>
        by_cases hm : m.bodyAId ∈ g.mergingCircles ∨ m.bodyBId ∈ g.mergingCircles
        · simp only [hA, hB, if_pos hm]
          obtain ⟨h1, h2, h3⟩ := ih g
          refine ⟨h1, h2, fun t ht => ?_⟩
          obtain ⟨⟨m', hm', hma, hmb⟩, hA'⟩ := h3 t ht
          exact ⟨⟨m', List.mem_cons_of_mem m hm', hma, hmb⟩, hA'⟩
        · simp only [hA, hB, if_neg hm]
          obtain ⟨h1, h2, h3⟩ := ih (performMerge now g A B m.x m.y).1
          obtain ⟨hpc, hps, hpv, hpa, hpb⟩ := performMerge_fields now g A B m.x m.y
          refine ⟨by rw [h1, hpc], ?_, ?_⟩
          · simp only [List.map_cons, List.sum_cons]
            rw [h2, hps, hpv]
            omega
          · intro t ht
            rcases List.mem_cons.mp ht with h | h
            · subst h
              refine ⟨⟨m, List.mem_cons_self m rest, ?_, ?_⟩, ?_⟩
              · rw [hpa, getCircle_bodyId hA]
              · rw [hpb, getCircle_bodyId hB]
              · refine ⟨A, ?_, hpv⟩
                rw [hpa, getCircle_bodyId hA]
                exact hA
            · obtain ⟨⟨m', hm', hma, hmb⟩, A', hA', hv'⟩ := h3 t h
              refine ⟨⟨m', List.mem_cons_of_mem m hm', hma, hmb⟩, A', ?_, hv'⟩
              rw [← getCircle_congr hpc t.aId]
              exact hA'

/-- C4: over a tick — collision detection into an empty queue, then the
queue drain — each resolved merge schedules a disc whose value is twice
the value of BOTH consumed participants, and the session score grows by
exactly the sum of the scheduled merged values times `scoreMul`, one
contribution per resolved merge. -/
theorem merge_doubles_value_and_score (now₁ now₂ : ℚ) (g : GState)
    (pairs : List (Body × Body)) (hq : g.mergeQueue = []) :
    (processMergeQueue now₂ (collisionStart now₁ g pairs)).1.score =
      g.score +
        (((processMergeQueue now₂ (collisionStart now₁ g pairs)).2.map
          fun t => t.value * scoreMul).sum) ∧
    ∀ t ∈ (processMergeQueue now₂ (collisionStart now₁ g pairs)).2,
      ∃ A B : Circle,
        getCircle g t.aId = some A ∧ getCircle g t.bId = some B ∧
        t.value = 2 * A.value ∧ t.value = 2 * B.value := by
  obtain ⟨hqeq, hcirc, hmerg, hscore⟩ := collisionStart_spec now₁ pairs g
  unfold processMergeQueue
  obtain ⟨h1, h2, h3⟩ :=
    pmqGo_spec now₂ (collisionStart now₁ g pairs).mergeQueue
      { collisionStart now₁ g pairs with mergeQueue := [] }
  constructor
  · rw [h2]
    congr 1
  · intro t ht
    obtain ⟨⟨m, hmq, hma, hmb⟩, A, hAt, hval⟩ := h3 t ht
    have hget : ∀ i, getCircle { collisionStart now₁ g pairs with mergeQueue := [] } i =
        getCircle g i := by
      intro i
      exact getCircle_congr (show _ = g.circles from hcirc) i
    rw [hqeq, hq, List.nil_append] at hmq
    obtain ⟨p, hp, hpm⟩ := List.mem_map.mp hmq
    have hpel := (List.mem_filter.mp hp).2
    obtain ⟨-, -, ⟨A', B', hA', hB', hvv⟩, -⟩ := (pairEligible_iff g p).mp hpel
    have hida : m.bodyAId = p.1.id := by rw [← hpm]; rfl
    have hidb : m.bodyBId = p.2.id := by rw [← hpm]; rfl
    rw [hget] at hAt
    have hta : t.aId = p.1.id := by rw [← hma, hida]
    have htb : t.bId = p.2.id := by rw [← hmb, hidb]
    have hAeq : A = A' := by
      rw [hta] at hAt
      rw [hAt] at hA'
      exact (Option.some_inj.mp hA')
    refine ⟨A', B', by rw [hta]; exact hA', by rw [htb]; exact hB', ?_, ?_⟩
    · rw [hval, hAeq, Nat.mul_comm]
    · rw [hval, hAeq, hvv, Nat.mul_comm]

/-- C4 witness: two value-2 discs collide and merge; the score rises from
0 by the scheduled merged value 4 (times the multiplier). -/
theorem merge_doubles_value_and_score_witness :
    (processMergeQueue 1000
        (collisionStart 900
          (runningWith cfgDesk
            [⟨1, 2, 0, 1, 280, 560⟩, ⟨2, 2, 0, 2, 320, 560⟩])
          [(⟨1, "circle", 280, 560, 0, 0⟩, ⟨2, "circle", 320, 560, 0, 0⟩)])).1.score =
      (runningWith cfgDesk
          [⟨1, 2, 0, 1, 280, 560⟩, ⟨2, 2, 0, 2, 320, 560⟩]).score +
        (((processMergeQueue 1000
            (collisionStart 900
              (runningWith cfgDesk
                [⟨1, 2, 0, 1, 280, 560⟩, ⟨2, 2, 0, 2, 320, 560⟩])
              [(⟨1, "circle", 280, 560, 0, 0⟩, ⟨2, "circle", 320, 560, 0, 0⟩)])).2.map
          fun t => t.value * scoreMul).sum) :=
  (merge_doubles_value_and_score 900 1000
    (runningWith cfgDesk [⟨1, 2, 0, 1, 280, 560⟩, ⟨2, 2, 0, 2, 320, 560⟩])
    [(⟨1, "circle", 280, 560, 0, 0⟩, ⟨2, "circle", 320, 560, 0, 0⟩)] rfl).1

/-! ### C5 — the disc-count hard cap -/

theorem createCircle_length (now : ℚ) (g : GState) (x y : ℚ) (v : ℕ)
    (h : g.circles.length ≤ maxCircles) :
    (createCircle now g x y v).2.circles.length ≤ maxCircles := by
  unfold createCircle
  by_cases hc : maxCircles ≤ g.circles.length
  · rw [if_pos hc]
    exact h
  · rw [if_neg hc]
    simp only [List.length_append, List.length_cons, List.length_nil]
    omega

theorem removeCircle_length (g : GState) (i : ℕ) :
    (removeCircle g i).circles.length ≤ g.circles.length := by
  unfold removeCircle
  cases h : getCircle g i
  · exact le_refl _
  · exact List.length_filter_le _ _

theorem processMergeQueue_circles (now : ℚ) (g : GState) :
    (processMergeQueue now g).1.circles = g.circles := by
  unfold processMergeQueue
  exact (pmqGo_spec now g.mergeQueue { g with mergeQueue := [] }).1

theorem checkDangerLine_circles (cfg : Config) (now : ℚ) (g : GState) :
    (checkDangerLine cfg now g).circles = g.circles := by
  unfold checkDangerLine
  split
  · rfl
  split
  · exact endGame_circles _ _
  split
  · exact endGame_circles _ _
  · rfl

theorem createCircle_snd_length {now x y : ℚ} {v : ℕ} {g : GState}
    {c : Option Circle} {g' : GState}
    (hcc : createCircle now g x y v = (c, g'))
    (h : g.circles.length ≤ maxCircles) :
    g'.circles.length ≤ maxCircles := by
  have hlen := createCircle_length now g x y v h
  rw [hcc] at hlen
  exact hlen

theorem fireMergeTimeout_length (now : ℚ) (g : GState) (t : PendingSpawn)
    (h : g.circles.length ≤ maxCircles) :
    (fireMergeTimeout now g t).circles.length ≤ maxCircles := by
  have h2le : (removeCircle (removeCircle g t.aId) t.bId).circles.length ≤
      maxCircles :=
    le_trans (removeCircle_length _ _) (le_trans (removeCircle_length g t.aId) h)
  unfold fireMergeTimeout
  dsimp only
  split
  · next C g4 heq =>
      show g4.circles.length ≤ maxCircles
      exact createCircle_snd_length heq h2le
  · next g4 heq => exact createCircle_snd_length heq h2le

theorem dropPlace_length (now : ℚ) (roll : ℕ) (g : GState) (x y : ℚ)
    (h : g.circles.length ≤ maxCircles) :
    (dropPlace now roll g x y).circles.length ≤ maxCircles := by
  unfold dropPlace
  split
  · next C g' heq =>
      show g'.circles.length ≤ maxCircles
      exact createCircle_snd_length heq h
  · next g' heq => exact createCircle_snd_length heq h

theorem tryDrop_length (cfg : Config) (now : ℚ) (roll : ℕ) (g : GState)
    (h : g.circles.length ≤ maxCircles) :
    (tryDrop cfg now roll g).circles.length ≤ maxCircles := by
  unfold tryDrop
  split
  · exact h
  · split
    · exact h
    · dsimp only
      split
      · exact dropPlace_length _ _ _ _ _ h
      · split
        · exact dropPlace_length _ _ _ _ _ h
        · split
          · exact dropPlace_length _ _ _ _ _ h
          · rw [endGame_circles]
            exact h

theorem step_preserves_length (cfg : Config) {a b : GState}
    (h : Step cfg a b) (hle : a.circles.length ≤ maxCircles) :
    b.circles.length ≤ maxCircles := by
  cases h with
  | create now x y v => exact createCircle_length _ _ _ _ _ hle
  | remove bodyId => exact le_trans (removeCircle_length _ _) hle
  | collide now pairs =>
    rw [show (collisionStart now a pairs).circles.length = a.circles.length
      from congrArg List.length (collisionStart_spec now pairs a).2.1]
    exact hle
  | resolveMerges now =>
    rw [show ((processMergeQueue now a).1).circles.length = a.circles.length
      from congrArg List.length (processMergeQueue_circles now a)]
    exact hle
  | fire now t => exact fireMergeTimeout_length _ _ _ hle
  | drop now roll => exact tryDrop_length _ _ _ _ hle
  | updateHighest => exact hle
  | danger now =>
    rw [show (checkDangerLine cfg now a).circles.length = a.circles.length
      from congrArg List.length (checkDangerLine_circles cfg now a)]
    exact hle
  | stop reason =>
    rw [show (endGame a reason).circles.length = a.circles.length
      from congrArg List.length (endGame_circles a reason)]
    exact hle
  | restartGame roll => exact Nat.zero_le _

/-- C5: the number of live discs never exceeds `maxCircles` (150):
`createCircle` at capacity returns `null` and leaves the world and the
disc table untouched, and every reachable state — under any sequence of
the game's operations (drops, collision handling, merge resolution, fired
merge-completion timers, danger checks, restarts, …) — preserves the
bound. -/
theorem disc_count_bounded :
    (∀ (now x y : ℚ) (v : ℕ) (g : GState),
      maxCircles ≤ g.circles.length → createCircle now g x y v = (none, g)) ∧
    ∀ (cfg : Config) (g g' : GState),
      Relation.ReflTransGen (Step cfg) g g' →
      g.circles.length ≤ maxCircles → g'.circles.length ≤ maxCircles := by
  constructor
  · intro now x y v g h
    unfold createCircle
    rw [if_pos h]
  · intro cfg g g' hsteps hle
    induction hsteps with
    | refl => exact hle
    | tail hab hbc ih => exact step_preserves_length cfg hbc ih

/-- C5 witness: on a board already holding 150 discs, `createCircle`
rejects the spawn and changes nothing; and a concrete one-step sequence
from an empty session keeps the count under the cap. -/
theorem disc_count_bounded_witness :
    createCircle 0
        (runningWith cfgDesk
          ((List.range 150).map fun i => ⟨i + 1, 2, 0, i + 1, 10, 10⟩))
        5 5 2 =
      (none,
        runningWith cfgDesk
          ((List.range 150).map fun i => ⟨i + 1, 2, 0, i + 1, 10, 10⟩)) ∧
    (endGame (runningWith cfgDesk []) "Danger line crossed.").circles.length ≤
      maxCircles :=
  ⟨disc_count_bounded.1 0 5 5 2 _ (of_decide_eq_true (by with_unfolding_all rfl)),
    disc_count_bounded.2 cfgDesk (runningWith cfgDesk [])
      (endGame (runningWith cfgDesk []) "Danger line crossed.")
      (Relation.ReflTransGen.single
        (Step.stop "Danger line crossed." (runningWith cfgDesk [])))
      (Nat.zero_le _)⟩

/-! ### C7 — grace-period exemption -/

/-- C7 counterexample: a disc younger than the grace period CAN trigger
session end.  On the mobile board, with seven grace-cleared discs sitting
in the emergency band (none crossing the line) and five grace-cleared
discs low on the board, the board holds 12 discs and the session
survives; adding a 13th disc that is only 500 ms old (≤ gracePeriodMs)
tips the emergency heuristic's `size > 12` total-count gate — which counts
young discs — and the session ends. -/
theorem young_disc_triggers_end :
    ((10000 : ℚ) - 9500 ≤ gracePeriodMs) ∧
    (checkDangerLine cfgMob 10000
        (updateHighestCircle cfgMob
          (runningWith cfgMob
            [⟨1, 2, 0, 1, 140, 512/5⟩, ⟨2, 2, 0, 2, 30, 105⟩,
              ⟨3, 2, 0, 3, 60, 105⟩, ⟨4, 2, 0, 4, 90, 105⟩,
              ⟨5, 2, 0, 5, 120, 105⟩, ⟨6, 2, 0, 6, 150, 105⟩,
              ⟨7, 2, 0, 7, 180, 105⟩, ⟨8, 2, 0, 8, 30, 300⟩,
              ⟨9, 2, 0, 9, 60, 300⟩, ⟨10, 2, 0, 10, 90, 300⟩,
              ⟨11, 2, 0, 11, 120, 300⟩, ⟨12, 2, 0, 12, 150, 300⟩,
              ⟨13, 2, 9500, 13, 200, 300⟩]))).ended = true ∧
    (checkDangerLine cfgMob 10000
        (updateHighestCircle cfgMob
          (runningWith cfgMob
            [⟨1, 2, 0, 1, 140, 512/5⟩, ⟨2, 2, 0, 2, 30, 105⟩,
              ⟨3, 2, 0, 3, 60, 105⟩, ⟨4, 2, 0, 4, 90, 105⟩,
              ⟨5, 2, 0, 5, 120, 105⟩, ⟨6, 2, 0, 6, 150, 105⟩,
              ⟨7, 2, 0, 7, 180, 105⟩, ⟨8, 2, 0, 8, 30, 300⟩,
              ⟨9, 2, 0, 9, 60, 300⟩, ⟨10, 2, 0, 10, 90, 300⟩,
              ⟨11, 2, 0, 11, 120, 300⟩,
              ⟨12, 2, 0, 12, 150, 300⟩]))).ended = false := by
  refine ⟨of_decide_eq_true (by with_unfolding_all rfl), ?_, ?_⟩ <;>
    with_unfolding_all rfl

/-- C7 amended: a disc whose age is at most `gracePeriodMs` is exempt from
the danger-line crossing test and is excluded from the emergency BAND
count — in particular, a session whose discs are all within the grace
period is never ended by `checkDangerLine`, whatever the positions.
However, young discs do count toward the emergency heuristic's
total-disc-count gate (`size > 12`), so a young disc's mere presence can
still tip that gate and end the session. -/
theorem grace_period_exemption :
    (∀ (cfg : Config) (now : ℚ) (g : GState),
      (∀ c ∈ g.circles, now - c.bornAt ≤ gracePeriodMs) →
      checkDangerLine cfg now g = g) ∧
    ∀ (cfg : Config) (now : ℚ) (g : GState),
      emergencyCount cfg now g =
        emergencyCount cfg now
          { g with circles :=
              g.circles.filter fun c => !(now - c.bornAt ≤ gracePeriodMs) } := by
  constructor
  · intro cfg now g h
    unfold checkDangerLine
    split
    · rfl
    · have hd : dangerHit cfg now g = false := by
        unfold dangerHit
        rw [List.any_eq_false]
        intro c hc
        simp [h c hc]
      have he : emergencyCount cfg now g = 0 := by
        unfold emergencyCount
        rw [List.length_eq_zero, List.filter_eq_nil_iff]
        intro c hc
        simp [h c hc]
      simp [hd, he]
  · intro cfg now g
    unfold emergencyCount
    show _ = (List.filter _ (List.filter _ g.circles)).length
    rw [List.filter_filter]
    congr 1
    apply List.filter_congr
    intro c _
    cases hb : decide (now - c.bornAt ≤ gracePeriodMs) <;> simp [hb]

/-- C7 amended witness: a session holding one disc that is 100 ms old —
parked right at the top of the board — is untouched by the danger check,
and the emergency count of a mixed board ignores its young disc. -/
theorem grace_period_exemption_witness :
    checkDangerLine cfgDesk 100
        (runningWith cfgDesk [⟨1, 2, 0, 1, 300, 20⟩]) =
      runningWith cfgDesk [⟨1, 2, 0, 1, 300, 20⟩] ∧
    emergencyCount cfgDesk 10000
        (runningWith cfgDesk [⟨1, 2, 0, 1, 300, 100⟩, ⟨2, 2, 9900, 2, 60, 100⟩]) =
      emergencyCount cfgDesk 10000
        { runningWith cfgDesk
            [⟨1, 2, 0, 1, 300, 100⟩, ⟨2, 2, 9900, 2, 60, 100⟩] with
          circles :=
            (runningWith cfgDesk
              [⟨1, 2, 0, 1, 300, 100⟩, ⟨2, 2, 9900, 2, 60, 100⟩]).circles.filter
              fun c => !((10000 : ℚ) - c.bornAt ≤ gracePeriodMs) } :=
  ⟨grace_period_exemption.1 cfgDesk 100 _
      (of_decide_eq_true (by with_unfolding_all rfl)),
    grace_period_exemption.2 cfgDesk 10000 _⟩

/-! ### C8 — the danger-line fast path -/

/-- C8 counterexample: the fast path is NOT a pure optimization.  On the
mobile board, thirteen grace-cleared discs hover just below the danger
line (inside the 30-unit emergency band, none crossing): the maintained
`highestCircleTop` (82.6) exceeds `dangerLineY` (80), so `checkDangerLine`
early-returns without ending the session, while the unconditional full
scan ends it with "Too many circles stacked." — the fast path suppresses
the emergency stacked-circles end. -/
theorem fastpath_masks_emergency_end :
    (dangerLineY cfgMob <
      (updateHighestCircle cfgMob
        (runningWith cfgMob
          [⟨1, 2, 0, 1, 20, 105⟩, ⟨2, 2, 0, 2, 40, 105⟩,
            ⟨3, 2, 0, 3, 60, 105⟩, ⟨4, 2, 0, 4, 80, 105⟩,
            ⟨5, 2, 0, 5, 100, 105⟩, ⟨6, 2, 0, 6, 120, 105⟩,
            ⟨7, 2, 0, 7, 140, 105⟩, ⟨8, 2, 0, 8, 160, 105⟩,
            ⟨9, 2, 0, 9, 180, 105⟩, ⟨10, 2, 0, 10, 200, 105⟩,
            ⟨11, 2, 0, 11, 220, 105⟩, ⟨12, 2, 0, 12, 240, 105⟩,
            ⟨13, 2, 0, 13, 260, 105⟩])).highestCircleTop) ∧
    (checkDangerLine cfgMob 10000
        (updateHighestCircle cfgMob
          (runningWith cfgMob
            [⟨1, 2, 0, 1, 20, 105⟩, ⟨2, 2, 0, 2, 40, 105⟩,
              ⟨3, 2, 0, 3, 60, 105⟩, ⟨4, 2, 0, 4, 80, 105⟩,
              ⟨5, 2, 0, 5, 100, 105⟩, ⟨6, 2, 0, 6, 120, 105⟩,
              ⟨7, 2, 0, 7, 140, 105⟩, ⟨8, 2, 0, 8, 160, 105⟩,
              ⟨9, 2, 0, 9, 180, 105⟩, ⟨10, 2, 0, 10, 200, 105⟩,
              ⟨11, 2, 0, 11, 220, 105⟩, ⟨12, 2, 0, 12, 240, 105⟩,
              ⟨13, 2, 0, 13, 260, 105⟩]))).ended = false ∧
    (checkDangerLineFullScan cfgMob 10000
        (updateHighestCircle cfgMob
          (runningWith cfgMob
            [⟨1, 2, 0, 1, 20, 105⟩, ⟨2, 2, 0, 2, 40, 105⟩,
              ⟨3, 2, 0, 3, 60, 105⟩, ⟨4, 2, 0, 4, 80, 105⟩,
              ⟨5, 2, 0, 5, 100, 105⟩, ⟨6, 2, 0, 6, 120, 105⟩,
              ⟨7, 2, 0, 7, 140, 105⟩, ⟨8, 2, 0, 8, 160, 105⟩,
              ⟨9, 2, 0, 9, 180, 105⟩, ⟨10, 2, 0, 10, 200, 105⟩,
              ⟨11, 2, 0, 11, 220, 105⟩, ⟨12, 2, 0, 12, 240, 105⟩,
              ⟨13, 2, 0, 13, 260, 105⟩]))).endReason =
      "Too many circles stacked." := by
  refine ⟨of_decide_eq_true (by with_unfolding_all rfl), ?_, ?_⟩ <;>
    with_unfolding_all rfl

theorem radius_pos (cfg : Config) (v : ℕ) : 0 < getRadiusForValue cfg v := by
  unfold getRadiusForValue
  have h12 : (0 : ℚ) < 12 := by norm_num
  exact lt_of_lt_of_le h12 (le_trans (le_max_left _ _) (le_max_left _ _))

theorem foldl_top_min (f : Circle → ℚ) :
    ∀ (l : List Circle) (H : ℚ),
      l.foldl (fun acc c => if f c < acc then f c else acc) H =
        (l.map f).foldl min H := by
  intro l
  induction l with
  | nil => intro H; rfl
  | cons c rest ih =>
    intro H
    rw [List.map_cons, List.foldl_cons, List.foldl_cons, ← ih]
    congr 1
    by_cases h : f c < H
    · rw [if_pos h, min_eq_right (le_of_lt h)]
    · rw [if_neg h, min_eq_left (le_of_not_lt h)]

theorem foldl_min_le_init (l : List ℚ) :
    ∀ H : ℚ, l.foldl min H ≤ H := by
  induction l with
  | nil => intro H; exact le_refl H
  | cons x rest ih =>
    intro H
    rw [List.foldl_cons]
    exact le_trans (ih (min H x)) (min_le_left H x)

theorem foldl_min_le (l : List ℚ) :
    ∀ (H : ℚ), ∀ x ∈ l, l.foldl min H ≤ x := by
  induction l with
  | nil => intro H x hx; cases hx
  | cons y rest ih =>
    intro H x hx
    rw [List.foldl_cons]
    rcases List.mem_cons.mp hx with h | h
    · subst h
      exact le_trans (foldl_min_le_init rest (min H x)) (min_le_right H x)
    · exact ih (min H y) x h

/-- C8 amended: the incrementally maintained `highestCircleTop` always
equals the from-scratch minimum, and when it does NOT exceed the danger
line the fast-path check coincides with the unconditional full scan; when
it does exceed the danger line, the skipped scan could not have produced a
"Danger line crossed." end (no disc satisfies the crossing test) — but, as
the counterexample shows, the skipped EMERGENCY check could have fired, so
the early return is a pure optimization only for the danger-line part of
the decision. -/
theorem highest_top_and_fastpath :
    (∀ (cfg : Config) (g : GState),
      (updateHighestCircle cfg g).highestCircleTop = specHighestTop cfg g) ∧
    (∀ (cfg : Config) (now : ℚ) (g : GState),
      ¬(dangerLineY cfg < g.highestCircleTop) →
      checkDangerLine cfg now g = checkDangerLineFullScan cfg now g) ∧
    ∀ (cfg : Config) (now : ℚ) (g : GState),
      g.highestCircleTop = specHighestTop cfg g →
      dangerLineY cfg < g.highestCircleTop →
      dangerHit cfg now g = false := by
  refine ⟨?_, ?_, ?_⟩
  · intro cfg g
    show List.foldl _ cfg.boardH g.circles = _
    exact foldl_top_min (fun c => c.y - getRadiusForValue cfg c.value)
      g.circles cfg.boardH
  · intro cfg now g h
    unfold checkDangerLine checkDangerLineFullScan
    rw [if_neg h]
  · intro cfg now g hacc hlt
    unfold dangerHit
    rw [List.any_eq_false]
    intro c hc
    have htop : g.highestCircleTop ≤ c.y - getRadiusForValue cfg c.value := by
      rw [hacc]
      exact foldl_min_le _ cfg.boardH _
        (List.mem_map.mpr ⟨c, hc, rfl⟩)
    have h1 : ¬(c.y - getRadiusForValue cfg c.value < dangerLineY cfg) :=
      not_lt.mpr (le_of_lt (lt_of_lt_of_le hlt htop))
    have h2 : ¬(c.y < dangerLineY cfg) := by
      have hr := radius_pos cfg c.value
      have : dangerLineY cfg < c.y := by linarith [lt_of_lt_of_le hlt htop]
      exact not_lt.mpr (le_of_lt this)
    simp [h1, h2]

/-- C8 amended witness: on a concrete one-disc mobile state the recomputed
top equals the from-scratch minimum; a state whose tracked top is below
the line takes the full-scan path unchanged; and a state with an accurate
tracked top above the line has no disc passing the crossing test. -/
theorem highest_top_and_fastpath_witness :
    (updateHighestCircle cfgMob
        (runningWith cfgMob [⟨1, 2, 0, 1, 140, 200⟩])).highestCircleTop =
      specHighestTop cfgMob (runningWith cfgMob [⟨1, 2, 0, 1, 140, 200⟩]) ∧
    checkDangerLine cfgMob 0
        { runningWith cfgMob [] with highestCircleTop := 50 } =
      checkDangerLineFullScan cfgMob 0
        { runningWith cfgMob [] with highestCircleTop := 50 } ∧
    dangerHit cfgMob 10000
        (updateHighestCircle cfgMob
          (runningWith cfgMob [⟨1, 2, 0, 1, 140, 200⟩])) = false :=
  ⟨highest_top_and_fastpath.1 cfgMob _,
    highest_top_and_fastpath.2.1 cfgMob 0 _
      (of_decide_eq_true (by with_unfolding_all rfl)),
    highest_top_and_fastpath.2.2 cfgMob 10000 _
      (by with_unfolding_all rfl)
      (of_decide_eq_true (by with_unfolding_all rfl))⟩

/-! ### C9 — drop placement search order -/

theorem isSpawnFree_xbounds {cfg : Config} {g : GState} {x y : ℚ} {v : ℕ}
    (h : isSpawnFree cfg g x y v = true) :
    getRadiusForValue cfg v ≤ x ∧ x ≤ cfg.boardW - getRadiusForValue cfg v := by
  unfold isSpawnFree at h
  simp only [Bool.and_eq_true, decide_eq_true_eq] at h
  exact ⟨by tauto, by tauto⟩

theorem phase1_eq_find (cfg : Config) (g : GState) (v : ℕ) (x y step : ℚ) :
    ∀ l : List ℕ,
      phase1Search cfg g v (getRadiusForValue cfg v) x y step l =
        (l.flatMap fun i => [x - i * step, x + i * step]).find?
          (fun px => isSpawnFree cfg g px y v) := by
  intro l
  induction l with
  | nil => rfl
  | cons i rest ih =>
    have hxl : (decide (getRadiusForValue cfg v ≤ x - i * step) &&
        isSpawnFree cfg g (x - i * step) y v) =
          isSpawnFree cfg g (x - i * step) y v := by
      cases hf : isSpawnFree cfg g (x - i * step) y v
      · simp
      · rw [decide_eq_true (isSpawnFree_xbounds hf).1]
        rfl
    have hxr : (decide (x + i * step ≤ cfg.boardW - getRadiusForValue cfg v) &&
        isSpawnFree cfg g (x + i * step) y v) =
          isSpawnFree cfg g (x + i * step) y v := by
      cases hf : isSpawnFree cfg g (x + i * step) y v
      · simp
      · rw [decide_eq_true (isSpawnFree_xbounds hf).2]
        rfl
    show (if _ = true then _ else if _ = true then _ else _) = _
    rw [hxl, hxr, List.flatMap_cons, List.cons_append, List.singleton_append]
    cases hfl : isSpawnFree cfg g (x - i * step) y v
    · cases hfr : isSpawnFree cfg g (x + i * step) y v
      · rw [if_neg (by simp), if_neg (by simp),
          List.find?_cons_of_neg _ (by simp [hfl]),
          List.find?_cons_of_neg _ (by simp [hfr])]
        exact ih
      · rw [if_neg (by simp), if_pos rfl,
          List.find?_cons_of_neg _ (by simp [hfl])]
        refine (List.find?_cons_of_pos _ ?_).symm
        exact hfr
    · rw [if_pos rfl]
      refine (List.find?_cons_of_pos _ ?_).symm
      exact hfl

theorem zigzag_eq_find (cfg : Config) (g : GState) (v : ℕ)
    (step safeY : ℚ) :
    ∀ l : List ℕ,
      zigzagSearch cfg g v (getRadiusForValue cfg v) step safeY l =
        (l.map fun i =>
            g.previewX + (if i % 2 = 0 then (1 : ℚ) else -1) * (↑(i / 2)) * step).find?
          (fun px => isSpawnFree cfg g px safeY v) := by
  intro l
  induction l with
  | nil => rfl
  | cons i rest ih =>
    have hguard : ((decide (getRadiusForValue cfg v ≤
          g.previewX + (if i % 2 = 0 then (1 : ℚ) else -1) * (↑(i / 2)) * step) &&
        decide (g.previewX + (if i % 2 = 0 then (1 : ℚ) else -1) * (↑(i / 2)) * step ≤
            cfg.boardW - getRadiusForValue cfg v)) &&
          isSpawnFree cfg g
            (g.previewX + (if i % 2 = 0 then (1 : ℚ) else -1) * (↑(i / 2)) * step)
            safeY v) =
        isSpawnFree cfg g
          (g.previewX + (if i % 2 = 0 then (1 : ℚ) else -1) * (↑(i / 2)) * step)
          safeY v := by
      cases hf : isSpawnFree cfg g
          (g.previewX + (if i % 2 = 0 then (1 : ℚ) else -1) * (↑(i / 2)) * step)
          safeY v
      · simp
      · rw [decide_eq_true (isSpawnFree_xbounds hf).1,
          decide_eq_true (isSpawnFree_xbounds hf).2]
        rfl
    show (if _ = true then _ else _) = _
    rw [hguard, List.map_cons]
    cases hf : isSpawnFree cfg g
        (g.previewX + (if i % 2 = 0 then (1 : ℚ) else -1) * (↑(i / 2)) * step)
        safeY v
    · rw [if_neg (by simp),
        List.find?_cons_of_neg _ (by simp only [hf]; exact Bool.false_ne_true)]
      exact ih
    · rw [if_pos rfl]
      refine (List.find?_cons_of_pos _ ?_).symm
      exact hf

/-- C9: when a drop request goes through (session running, cooldown
elapsed) and the default spawn point `(previewX, spawnY)` is occupied, the
disc is placed at the FIRST position of the fixed search order — stepped
offsets `previewX ± i*step` for `i = 1..6`, left before right, then the
zig-zag positions at the spawn Y — for which `isSpawnFree` holds (the
in-loop wall guards are subsumed by `isSpawnFree`'s own board-edge
bounds); if none is free the session ends with reason exactly
"No space to spawn." and no disc is created. -/
theorem tryDrop_first_free (cfg : Config) (now : ℚ) (roll : ℕ) (g : GState)
    (hrun : g.running = true) (hend : g.ended = false) (hp : g.paused = false)
    (hcd : ¬(now - g.lastDropTs < dropCooldownMs))
    (hocc : isSpawnFree cfg g g.previewX (spawnY cfg) g.nextValue = false) :
    tryDrop cfg now roll g =
      (match (dropSearchOrder cfg g).find?
          (fun px => isSpawnFree cfg g px (spawnY cfg) g.nextValue) with
        | some px => dropPlace now roll g px (spawnY cfg)
        | none => endGame g "No space to spawn.") ∧
    ((dropSearchOrder cfg g).find?
        (fun px => isSpawnFree cfg g px (spawnY cfg) g.nextValue) = none →
      (tryDrop cfg now roll g).circles = g.circles ∧
      (tryDrop cfg now roll g).endReason = "No space to spawn.") ∧
    (g.circles.length < maxCircles →
      ∀ px, (dropSearchOrder cfg g).find?
          (fun px' => isSpawnFree cfg g px' (spawnY cfg) g.nextValue) = some px →
        isSpawnFree cfg g px (spawnY cfg) g.nextValue = true ∧
        ∃ (C : Circle) (g' : GState),
          createCircle now g px (spawnY cfg) g.nextValue = (some C, g') ∧
          C.x = px ∧ C.y = spawnY cfg ∧
          tryDrop cfg now roll g =
            { g' with nextValue := roll, lastDropTs := now }) := by
  have hguard : ¬((!g.running || g.ended || g.paused) = true) := by
    rw [hrun, hend, hp]
    simp
  have heq : tryDrop cfg now roll g =
      (match (dropSearchOrder cfg g).find?
          (fun px => isSpawnFree cfg g px (spawnY cfg) g.nextValue) with
        | some px => dropPlace now roll g px (spawnY cfg)
        | none => endGame g "No space to spawn.") := by
    unfold tryDrop
    rw [if_neg hguard, if_neg hcd]
    dsimp only
    rw [if_neg (by simp [hocc])]
    rw [phase1_eq_find cfg g g.nextValue g.previewX (spawnY cfg)
      (getRadiusForValue cfg g.nextValue * 1.1) [1, 2, 3, 4, 5, 6]]
    rw [zigzag_eq_find cfg g g.nextValue
      (getRadiusForValue cfg g.nextValue * 1.1) (spawnY cfg) [0, 1, 2, 3, 4, 5, 6]]
    unfold dropSearchOrder
    dsimp only
    rw [List.find?_append]
    cases h1 : ([1, 2, 3, 4, 5, 6] : List ℕ).flatMap
        (fun i => [g.previewX - ↑i * (getRadiusForValue cfg g.nextValue * 1.1),
          g.previewX + ↑i * (getRadiusForValue cfg g.nextValue * 1.1)])
        |>.find? (fun px => isSpawnFree cfg g px (spawnY cfg) g.nextValue)
    · rfl
    · rfl
  refine ⟨heq, ?_, ?_⟩
  · intro hnone
    rw [heq, hnone]
    exact ⟨endGame_circles g _, by simp [endGame, hend]⟩
  · intro hcap px hfind
    have hcc : createCircle now g px (spawnY cfg) g.nextValue =
        (some ⟨g.nextBodyId, g.nextValue, now, g.nextLocalId, px, spawnY cfg⟩,
          { g with
              circles := g.circles ++
                [⟨g.nextBodyId, g.nextValue, now, g.nextLocalId, px, spawnY cfg⟩]
              nextLocalId := g.nextLocalId + 1
              nextBodyId := g.nextBodyId + 1 }) := by
      unfold createCircle
      rw [if_neg (not_le.mpr hcap)]
    have hfree : isSpawnFree cfg g px (spawnY cfg) g.nextValue = true :=
      @List.find?_some ℚ
        (fun px' => isSpawnFree cfg g px' (spawnY cfg) g.nextValue) px
        (dropSearchOrder cfg g) hfind
    refine ⟨hfree, _, _, hcc, rfl, rfl, ?_⟩
    rw [heq, hfind]
    show dropPlace now roll g px (spawnY cfg) = _
    unfold dropPlace
    rw [hcc]

/-- C9 witness: on the desktop board with a single disc occupying the
default spawn point, a drop lands at the first free search position —
offsets ±step are still blocked, so the left offset at `i = 2`
(x = 225.2) is chosen. -/
theorem tryDrop_first_free_witness :
    tryDrop cfgDesk 1000 4 (runningWith cfgDesk [⟨1, 2, 0, 1, 300, 272/5⟩]) =
      dropPlace 1000 4 (runningWith cfgDesk [⟨1, 2, 0, 1, 300, 272/5⟩])
        (1126/5) (spawnY cfgDesk) := by
  have h := (tryDrop_first_free cfgDesk 1000 4
    (runningWith cfgDesk [⟨1, 2, 0, 1, 300, 272/5⟩]) rfl rfl rfl
    (of_decide_eq_true (by with_unfolding_all rfl))
    (by with_unfolding_all rfl)).1
  rw [h]
  with_unfolding_all rfl

/-! ### C1 — restart versus the scheduled merge completion -/

/-- C1 (code bug): restart does NOT cancel the scheduled merge
completion.  Concrete trace: a fresh session spawns two value-2 discs,
they collide and merge at t = 1000 (the glide's `setTimeout` callback is
registered for t = 1300), the session restarts before the callback fires
(post-restart disc count 0 — the spawn count of a fresh session), and then
the host fires the still-registered callback: it runs against the
post-restart world and `createCircle` plants a value-4 disc in it — the
post-restart count becomes 1 with a leftover doubled-value disc, where the
claim (and the source's own "deterministic, no setTimeout" comment and the
spec's cancellability requirement) demand 0. -/
theorem restart_does_not_cancel_scheduled_merge :
    ((processMergeQueue 1000
        (collisionStart 900
          (createCircle 0
            ((createCircle 0
              (restart cfgDesk 2 (initialGState cfgDesk 0 0 2))
              280 560 2).2)
            320 560 2).2
          [(⟨1, "circle", 280, 560, 0, 0⟩, ⟨2, "circle", 320, 560, 0, 0⟩)])).2 =
      [⟨1, 2, 300, 560, 4, 1300⟩]) ∧
    ((restart cfgDesk 2
        (processMergeQueue 1000
          (collisionStart 900
            (createCircle 0
              ((createCircle 0
                (restart cfgDesk 2 (initialGState cfgDesk 0 0 2))
                280 560 2).2)
              320 560 2).2
            [(⟨1, "circle", 280, 560, 0, 0⟩,
              ⟨2, "circle", 320, 560, 0, 0⟩)])).1).circles = []) ∧
    ((fireMergeTimeout 1300
        (restart cfgDesk 2
          (processMergeQueue 1000
            (collisionStart 900
              (createCircle 0
                ((createCircle 0
                  (restart cfgDesk 2 (initialGState cfgDesk 0 0 2))
                  280 560 2).2)
                320 560 2).2
              [(⟨1, "circle", 280, 560, 0, 0⟩,
                ⟨2, "circle", 320, 560, 0, 0⟩)])).1)
        ⟨1, 2, 300, 560, 4, 1300⟩).circles.map Circle.value) = [4] := by
  refine ⟨?_, ?_, ?_⟩ <;> with_unfolding_all rfl

/-! ### C10 — store update throttling -/

/-- C10: `GameStateStore.setState` throttles by dropping.  A call arriving
less than 100 ms after the previously accepted update leaves the store
entirely unchanged and notifies no subscriber; an accepted call notifies,
spread-merges the partial update, and preserves every field the partial
update does not mention while setting every field it does. -/
theorem setState_throttles_by_dropping :
    (∀ (store : GameStateStore) (now : ℚ) (p : PartialGameState),
      now - store.updateThrottle < 100 →
      store.setState now p = (store, false)) ∧
    ∀ (store : GameStateStore) (now : ℚ) (p : PartialGameState),
      ¬(now - store.updateThrottle < 100) →
      (store.setState now p).2 = true ∧
      (store.setState now p).1.state = mergeState store.state p ∧
      (p.score = none → (store.setState now p).1.state.score = store.state.score) ∧
      (p.best = none → (store.setState now p).1.state.best = store.state.best) ∧
      (p.nextValue = none →
        (store.setState now p).1.state.nextValue = store.state.nextValue) ∧
      (p.running = none →
        (store.setState now p).1.state.running = store.state.running) ∧
      (p.paused = none →
        (store.setState now p).1.state.paused = store.state.paused) ∧
      (p.ended = none → (store.setState now p).1.state.ended = store.state.ended) ∧
      (p.endReason = none →
        (store.setState now p).1.state.endReason = store.state.endReason) ∧
      (∀ v, p.score = some v → (store.setState now p).1.state.score = v) ∧
      (∀ v, p.best = some v → (store.setState now p).1.state.best = v) ∧
      (∀ v, p.nextValue = some v → (store.setState now p).1.state.nextValue = v) ∧
      (∀ v, p.running = some v → (store.setState now p).1.state.running = v) ∧
      (∀ v, p.paused = some v → (store.setState now p).1.state.paused = v) ∧
      (∀ v, p.ended = some v → (store.setState now p).1.state.ended = v) ∧
      ∀ v, p.endReason = some v → (store.setState now p).1.state.endReason = v := by
  constructor
  · intro store now p h
    unfold GameStateStore.setState
    simp [h]
  · intro store now p h
    unfold GameStateStore.setState
    rw [if_neg h]
    refine ⟨rfl, rfl, ?_, ?_, ?_, ?_, ?_, ?_, ?_, ?_, ?_, ?_, ?_, ?_, ?_, ?_⟩ <;>
      first
        | (intro hn; simp [mergeState, hn])
        | (intro v hv; simp [mergeState, hv])

/-- C10 witness: a concrete update 50 ms after the last accepted one is
dropped wholesale (an `ended := true, endReason := …` update is silently
discarded), while the same update at 150 ms is accepted, notifies, and
preserves the unmentioned `score`. -/
theorem setState_throttles_by_dropping_witness :
    (GameStateStore.setState
        ⟨⟨7, 9, 2, true, false, false, ""⟩, 0⟩ 50
        { ended := some true, endReason := some "Danger line crossed." } =
      (⟨⟨7, 9, 2, true, false, false, ""⟩, 0⟩, false)) ∧
    (GameStateStore.setState
        ⟨⟨7, 9, 2, true, false, false, ""⟩, 0⟩ 150
        { ended := some true, endReason := some "Danger line crossed." }).1.state.score =
      7 :=
  ⟨setState_throttles_by_dropping.1 _ 50 _
      (of_decide_eq_true (by with_unfolding_all rfl)),
    (setState_throttles_by_dropping.2
      ⟨⟨7, 9, 2, true, false, false, ""⟩, 0⟩ 150
      { ended := some true, endReason := some "Danger line crossed." }
      (of_decide_eq_true (by with_unfolding_all rfl))).2.2.1 rfl⟩

end Suoka
